import Mathlib

/-!
Shallow embedding of the relay operation (`proxy_api_request`) of
`src/app.py`, a single-endpoint Flask HTTP relay, together with theorems
settling the specification claims about it.

Modelling conventions:
* JSON values are the inductive `Json`; Python truthiness (`if not data:`)
  is `Json.truthy`.
* The inbound payload is `Option Json` (`request.get_json()` may yield no
  payload, modelled as `none`).
* The outbound HTTP call (`requests.post`, app.py lines 97-103) is an
  oracle `net : OutboundCall → NetOutcome` supplied to the relay; the
  relay records every call it issues in the `calls` field of its result,
  so "no network call is attempted" is `calls = []`.
* `response.json()` is the `json?` field of `HttpResponse`: it is
  `some j` exactly when the response body is valid JSON parsing to `j`
  (the parsing itself is done by the external `requests` library, not by
  repository code, so it is part of the response oracle).
* The wall clock (`datetime.now().isoformat()`, line 120) is the `now`
  parameter.
* Python exception messages produced by the interpreter itself (e.g. the
  text of an `AttributeError`) are modelled as descriptive constants; no
  theorem inspects them.  Messages written literally in app.py are
  embedded verbatim.
* Exception dispatch follows Python `except` semantics: the handlers of
  lines 123-166 are tried in order against the dynamic class of the
  raised exception.  In every released version of `requests`,
  `requests.exceptions.SSLError` is a subclass of
  `requests.exceptions.ConnectionError`, so a TLS verification failure
  is caught by the `except ConnectionError` clause at line 132 and the
  `except SSLError` clause at lines 141-148 is dead code.
-/

namespace FlaskRelay

/-- JSON values, as produced by `request.get_json()`. -/
inductive Json where
  | null
  | bool (b : Bool)
  | num (n : Int)
  | str (s : String)
  | arr (elems : List Json)
  | obj (fields : List (String × Json))


/-- Python truthiness of a JSON value (`if not data:` in app.py line 62,
`if not url:` line 74). `None`, `False`, `0`, `""`, `[]`, `{}` are falsy. -/
def Json.truthy : Json → Bool
  | .null => false
  | .bool b => b
  | .num n => n != 0
  | .str s => s != ""
  | .arr es => !es.isEmpty
  | .obj fs => !fs.isEmpty

/-- `d.get(key)` on a Python dict represented as an association list
(parsed JSON objects have distinct keys; `find?` takes the first match). -/
def dictGet (fields : List (String × Json)) (key : String) : Option Json :=
  (fields.find? (fun p => p.1 == key)).map (fun p => p.2)

/-- `d.get(key, default)` on a Python dict. -/
def dictGetD (fields : List (String × Json)) (key : String) (d : Json) : Json :=
  (dictGet fields key).getD d

/-- Python `str()` / f-string interpolation of a JSON value, used in
`f"Bearer {config.get('authToken', '')}"` (line 86).  For the container
cases Python renders a `repr`; those cases are unreachable for
spec-typed descriptors (every claim constrains `authToken` to be a
string) and are rendered schematically here. -/
def pyFStr : Json → String
  | .str s => s
  | .num n => toString n
  | .bool true => "True"
  | .bool false => "False"
  | .null => "None"
  | .arr _ => "[...]"
  | .obj _ => "\x7b...\x7d"

/-- The header dict literal of app.py lines 81-87, before empty-header
removal: each field resolved with `config.get(key, default)`, and
`Authorization` set to `f"Bearer {token}"` when `config.get('authToken')`
is truthy and `''` otherwise. -/
def headerCandidates (cf : List (String × Json)) : List (String × Json) :=
  [("Content-Type", dictGetD cf "contentType" (.str "application/json")),
   ("User-Agent", dictGetD cf "userAgent" (.str "okhttp/4.11.0")),
   ("Accept-Encoding", dictGetD cf "acceptEncoding" (.str "gzip,deflate,br")),
   ("x-api-key", dictGetD cf "apiKey" (.str "")),
   ("Authorization",
     if ((dictGet cf "authToken").getD .null).truthy then
       .str ("Bearer " ++ pyFStr (dictGetD cf "authToken" (.str "")))
     else
       .str "")]

/-- Line 90: `headers = {k: v for k, v in headers.items() if v}` —
remove falsy (empty) header values. -/
def filteredHeaders (cf : List (String × Json)) : List (String × Json) :=
  (headerCandidates cf).filter (fun p => p.2.truthy)

/-- Convert the surviving header values to strings.  A non-string value
makes the handler raise before any network I/O (either at the logging
line 93, where `len(v)` / `v[:20] + '...'` is applied to the value, or in
`requests`' header validation during request preparation), which the
`except Exception` arm turns into an `unexpected` failure; that is the
`none` case. -/
def headersToStrs : List (String × Json) → Option (List (String × String))
  | [] => some []
  | (k, .str v) :: t => (headersToStrs t).map (fun l => (k, v) :: l)
  | _ => none

/-- Line 93's log redaction of one header value:
`v[:20] + '...' if len(v) > 20 else v`. -/
def redact (v : String) : String :=
  if v.length > 20 then v.take 20 ++ "..." else v

/-- The outbound request of lines 97-103: fixed POST with a hard
30-second timeout and TLS verification on. -/
structure OutboundCall where
  url : String
  headers : List (String × String)
  jsonBody : Json
  timeout : Nat
  verify : Bool


/-- `requests.post(url=url, headers=headers, json=request_body,
timeout=30, verify=True)`. -/
def mkCall (url : String) (headers : List (String × String)) (body : Json) : OutboundCall :=
  { url := url, headers := headers, jsonBody := body, timeout := 30, verify := true }

/-- An HTTP response obtained from the target.  `json?` is what
`response.json()` yields: `some j` exactly when `text` is valid JSON
parsing to `j`, `none` when parsing raises `JSONDecodeError`. -/
structure HttpResponse where
  status_code : Nat
  headers : List (String × String)
  text : String
  json? : Option Json


/-- Outcome of the outbound call: an HTTP response (any status code), or
one of the exceptions caught at lines 123-166. -/
inductive NetOutcome where
  | response (r : HttpResponse)
  | timeout
  | connectionError
  | sslError
  | httpError (msg : String)
  | otherError (msg : String)


/-- `data` of a success envelope: parsed JSON body, or the raw text body
when the body is not valid JSON (lines 109-112). -/
inductive RData where
  | jsonData (j : Json)
  | textData (s : String)


/-- The response envelope returned by the handler; absent JSON keys are
`none`. -/
structure Envelope where
  success : Bool
  status_code : Option Nat := none
  data : Option RData := none
  headers : Option (List (String × String)) := none
  timestamp : Option String := none
  error : Option String := none
  error_type : Option String := none


/-- Result of one relay invocation: the JSON envelope, the HTTP status
the handler pairs with it, the outbound calls issued (empty when no
network call was attempted), and the redacted header summary that was
logged (line 93), if execution reached it. -/
structure RelayResult where
  envelope : Envelope
  http_status : Nat
  calls : List OutboundCall
  loggedHeaders : Option (List (String × String))


/-- Lines 62-66: `{'error': 'No request data provided', 'success': False}`, 400.
Note: no `error_type` key. -/
def noDataEnvelope : Envelope :=
  { success := false, error := some "No request data provided" }

/-- Lines 75-78: `{'error': 'No target URL provided', 'success': False}`, 400.
Note: no `error_type` key. -/
def noUrlEnvelope : Envelope :=
  { success := false, error := some "No target URL provided" }

/-- Lines 123-130. -/
def timeoutEnvelope : Envelope :=
  { success := false,
    error := some "Request timeout - the API took too long to respond",
    error_type := some "timeout" }

/-- Lines 132-139. -/
def connectionEnvelope : Envelope :=
  { success := false,
    error := some "Connection error - unable to reach the target API",
    error_type := some "connection" }

/-- Lines 141-148: the envelope of the `except SSLError` handler.  Dead
code: `requests.exceptions.SSLError` subclasses
`requests.exceptions.ConnectionError`, so the line-132 handler catches a
TLS verification failure first and this envelope is never returned. -/
def sslEnvelope : Envelope :=
  { success := false,
    error := some "SSL certificate verification failed",
    error_type := some "ssl" }

/-- Lines 150-157: `f"HTTP error occurred: {str(e)}"`. -/
def httpEnvelope (msg : String) : Envelope :=
  { success := false,
    error := some ("HTTP error occurred: " ++ msg),
    error_type := some "http" }

/-- Lines 159-166: `f"Unexpected error: {str(e)}"`. -/
def unexpectedEnvelope (msg : String) : Envelope :=
  { success := false,
    error := some ("Unexpected error: " ++ msg),
    error_type := some "unexpected" }

/-- Lines 115-121: the success envelope, built from the response and the
current time, always paired with HTTP 200. -/
def successEnvelope (r : HttpResponse) (now : String) : Envelope :=
  { success := true,
    status_code := some r.status_code,
    data := some (match r.json? with
      | some j => RData.jsonData j
      | none => RData.textData r.text),
    headers := some r.headers,
    timestamp := some now }

/-- Lines 97-166 once the call is issued: dispatch on what
`requests.post` did, following Python's ordered `except` clauses.  An
`SSLError` raised by a TLS verification failure `isinstance`-matches the
`except requests.exceptions.ConnectionError` clause at line 132 (its
superclass) before the `except SSLError` clause at line 141 is reached,
so it is answered with the connection envelope at 503, not the
495/`"ssl"` envelope of the dead handler.  Every branch records the
single call made and the redacted header summary logged just before
it. -/
def netResult (o : NetOutcome) (call : OutboundCall) (now : String) : RelayResult :=
  match o with
  | .response r =>
      { envelope := successEnvelope r now, http_status := 200, calls := [call],
        loggedHeaders := some (call.headers.map (fun p => (p.1, redact p.2))) }
  | .timeout =>
      { envelope := timeoutEnvelope, http_status := 408, calls := [call],
        loggedHeaders := some (call.headers.map (fun p => (p.1, redact p.2))) }
  | .connectionError =>
      { envelope := connectionEnvelope, http_status := 503, calls := [call],
        loggedHeaders := some (call.headers.map (fun p => (p.1, redact p.2))) }
  | .sslError =>
      { envelope := connectionEnvelope, http_status := 503, calls := [call],
        loggedHeaders := some (call.headers.map (fun p => (p.1, redact p.2))) }
  | .httpError msg =>
      { envelope := httpEnvelope msg, http_status := 500, calls := [call],
        loggedHeaders := some (call.headers.map (fun p => (p.1, redact p.2))) }
  | .otherError msg =>
      { envelope := unexpectedEnvelope msg, http_status := 500, calls := [call],
        loggedHeaders := some (call.headers.map (fun p => (p.1, redact p.2))) }

/-- Lines 68-166 for a truthy dict payload: extract `config` and `body`
(line 69-70), validate the URL (73-78), build and filter the headers
(81-90), log (92-94) and issue the call (97-103), and classify the
outcome (105-166).

A non-dict `config` makes `config.get('url')` raise `AttributeError`;
a truthy non-string `url` makes `requests.post` raise during request
preparation (`InvalidURL`/`MissingSchema`, not one of the four caught
network exception classes); a non-string surviving header value raises
at the logging line or in `requests`' header validation.  All three are
swallowed by `except Exception` into an `unexpected` 500 before any
network I/O. -/
def relayCore (fields : List (String × Json)) (net : OutboundCall → NetOutcome)
    (now : String) : RelayResult :=
  match dictGetD fields "config" (.obj []) with
  | .obj cf =>
      if ((dictGet cf "url").getD .null).truthy then
        match headersToStrs (filteredHeaders cf) with
        | some hs =>
            match (dictGet cf "url").getD .null with
            | .str url =>
                netResult (net (mkCall url hs (dictGetD fields "body" (.obj []))))
                  (mkCall url hs (dictGetD fields "body" (.obj []))) now
            | _ =>
                { envelope := unexpectedEnvelope "invalid URL type", http_status := 500,
                  calls := [], loggedHeaders := some (hs.map (fun p => (p.1, redact p.2))) }
        | none =>
            { envelope := unexpectedEnvelope "non-string header value", http_status := 500,
              calls := [], loggedHeaders := none }
      else
        { envelope := noUrlEnvelope, http_status := 400, calls := [], loggedHeaders := none }
  | _ =>
      { envelope := unexpectedEnvelope "config object has no attribute get",
        http_status := 500, calls := [], loggedHeaders := none }

/-- The relay operation, app.py lines 55-166 (POST branch): `payload` is
what `request.get_json()` returned, `net` is the outbound HTTP client,
`now` the wall clock reading used for the success timestamp.  A falsy or
absent payload is rejected at line 62; a truthy non-dict payload makes
`data.get('config', {})` raise `AttributeError`, caught as `unexpected`. -/
def relay (payload : Option Json) (net : OutboundCall → NetOutcome)
    (now : String) : RelayResult :=
  match payload with
  | none =>
      { envelope := noDataEnvelope, http_status := 400, calls := [], loggedHeaders := none }
  | some j =>
      if j.truthy then
        match j with
        | .obj fields => relayCore fields net now
        | _ =>
            { envelope := unexpectedEnvelope "payload object has no attribute get",
              http_status := 500, calls := [], loggedHeaders := none }
      else
        { envelope := noDataEnvelope, http_status := 400, calls := [], loggedHeaders := none }

/-- Lines 81-87 specialized to string-typed descriptor fields (the
spec's data model types every header field `string`): the resolved value
of each header after `config.get(key, default)` defaulting, with the
`Authorization` value `f"Bearer {token}"` when `authToken` is truthy and
`''` otherwise. -/
def resolvedHeaders (ct ua ae ak tok : Option String) : List (String × String) :=
  [("Content-Type", ct.getD "application/json"),
   ("User-Agent", ua.getD "okhttp/4.11.0"),
   ("Accept-Encoding", ae.getD "gzip,deflate,br"),
   ("x-api-key", ak.getD ""),
   ("Authorization", if tok.getD "" = "" then "" else "Bearer " ++ tok.getD "")]

/-- Line 90 specialized to string-typed fields: the headers actually
sent are the resolved ones whose value is non-empty. -/
def sentHeaders (ct ua ae ak tok : Option String) : List (String × String) :=
  (resolvedHeaders ct ua ae ak tok).filter (fun p => p.2 ≠ "")

lemma getD_mapStr (o : Option String) (d : String) :
    (o.map Json.str).getD (.str d) = .str (o.getD d) := by
  cases o <;> rfl

/-- On string-typed configs the Json-level header candidates are the
string-typed resolution, injected back into `Json`. -/
lemma headerCandidates_strTyped (cf : List (String × Json))
    (ct ua ae ak tok : Option String)
    (hct : dictGet cf "contentType" = ct.map Json.str)
    (hua : dictGet cf "userAgent" = ua.map Json.str)
    (hae : dictGet cf "acceptEncoding" = ae.map Json.str)
    (hak : dictGet cf "apiKey" = ak.map Json.str)
    (htok : dictGet cf "authToken" = tok.map Json.str) :
    headerCandidates cf
      = (resolvedHeaders ct ua ae ak tok).map (fun p => (p.1, Json.str p.2)) := by
  unfold headerCandidates resolvedHeaders dictGetD
  rw [hct, hua, hae, hak, htok, getD_mapStr, getD_mapStr, getD_mapStr, getD_mapStr,
    getD_mapStr]
  cases tok with
  | none => simp [Json.truthy]
  | some t =>
      by_cases ht : t = "" <;> simp [Json.truthy, ht, pyFStr]

lemma filter_truthy_mapStr (l : List (String × String)) :
    ((l.map (fun p => (p.1, Json.str p.2))).filter (fun p => p.2.truthy))
      = (l.filter (fun p => p.2 ≠ "")).map (fun p => (p.1, Json.str p.2)) := by
  induction l with
  | nil => rfl
  | cons a t ih =>
      by_cases h : a.2 = "" <;>
        simp [Json.truthy, h, List.filter_cons, decide_not] <;>
        simpa [decide_not] using ih

lemma headersToStrs_mapStr (l : List (String × String)) :
    headersToStrs (l.map (fun p => (p.1, Json.str p.2))) = some l := by
  induction l with
  | nil => rfl
  | cons a t ih =>
      obtain ⟨k, v⟩ := a
      simp [headersToStrs, ih]

/-- On a string-typed config the filtered header dict survives string
conversion and equals `sentHeaders`. -/
lemma headersToStrs_filteredHeaders (cf : List (String × Json))
    (ct ua ae ak tok : Option String)
    (hct : dictGet cf "contentType" = ct.map Json.str)
    (hua : dictGet cf "userAgent" = ua.map Json.str)
    (hae : dictGet cf "acceptEncoding" = ae.map Json.str)
    (hak : dictGet cf "apiKey" = ak.map Json.str)
    (htok : dictGet cf "authToken" = tok.map Json.str) :
    headersToStrs (filteredHeaders cf) = some (sentHeaders ct ua ae ak tok) := by
  rw [filteredHeaders, headerCandidates_strTyped cf ct ua ae ak tok hct hua hae hak htok,
    filter_truthy_mapStr, headersToStrs_mapStr, sentHeaders]

lemma netResult_calls (o : NetOutcome) (call : OutboundCall) (now : String) :
    (netResult o call now).calls = [call] := by
  cases o <;> rfl

lemma netResult_logged (o : NetOutcome) (call : OutboundCall) (now : String) :
    (netResult o call now).loggedHeaders
      = some (call.headers.map (fun p => (p.1, redact p.2))) := by
  cases o <;> rfl

lemma netResult_time_independent (o : NetOutcome) (call : OutboundCall) (t₁ t₂ : String) :
    (netResult o call t₁).envelope.data = (netResult o call t₂).envelope.data ∧
    (netResult o call t₁).envelope.status_code = (netResult o call t₂).envelope.status_code ∧
    (netResult o call t₁).http_status = (netResult o call t₂).http_status := by
  cases o <;> exact ⟨rfl, rfl, rfl⟩

/-- Every run of the relay either issues no outbound call and produces a
result independent of the clock, or issues exactly one call, built by
`mkCall` (hence with TLS verification on), and hands its outcome to
`netResult`. -/
lemma relay_shape (payload : Option Json) (net : OutboundCall → NetOutcome) :
    ((∀ t₁ t₂, relay payload net t₁ = relay payload net t₂) ∧
      (∀ t, (relay payload net t).calls = [])) ∨
    (∃ call : OutboundCall, call.verify = true ∧
      ∀ t, relay payload net t = netResult (net call) call t) := by
  cases payload with
  | none => exact Or.inl ⟨fun t₁ t₂ => rfl, fun t => rfl⟩
  | some j =>
    by_cases ht : j.truthy = true
    case neg =>
      exact Or.inl ⟨fun t₁ t₂ => by simp [relay, ht], fun t => by simp [relay, ht]⟩
    case pos =>
      cases j with
      | null => simp [Json.truthy] at ht
      | bool b => exact Or.inl ⟨fun t₁ t₂ => by simp [relay, ht], fun t => by simp [relay, ht]⟩
      | num n => exact Or.inl ⟨fun t₁ t₂ => by simp [relay, ht], fun t => by simp [relay, ht]⟩
      | str s => exact Or.inl ⟨fun t₁ t₂ => by simp [relay, ht], fun t => by simp [relay, ht]⟩
      | arr es => exact Or.inl ⟨fun t₁ t₂ => by simp [relay, ht], fun t => by simp [relay, ht]⟩
      | obj fields =>
        have hrel : ∀ t : String,
            relay (some (.obj fields)) net t = relayCore fields net t := by
          intro t; simp [relay, ht]
        rcases hc : dictGetD fields "config" (.obj []) with _ | b | n | s | es | cf
        case null =>
          have hcore : ∀ t, relayCore fields net t =
              { envelope := unexpectedEnvelope "config object has no attribute get",
                http_status := 500, calls := [], loggedHeaders := none } := by
            intro t; rw [relayCore.eq_def, hc]
          exact Or.inl ⟨fun t₁ t₂ => by rw [hrel, hcore, hrel, hcore],
            fun t => by rw [hrel, hcore]⟩
        case bool =>
          have hcore : ∀ t, relayCore fields net t =
              { envelope := unexpectedEnvelope "config object has no attribute get",
                http_status := 500, calls := [], loggedHeaders := none } := by
            intro t; rw [relayCore.eq_def, hc]
          exact Or.inl ⟨fun t₁ t₂ => by rw [hrel, hcore, hrel, hcore],
            fun t => by rw [hrel, hcore]⟩
        case num =>
          have hcore : ∀ t, relayCore fields net t =
              { envelope := unexpectedEnvelope "config object has no attribute get",
                http_status := 500, calls := [], loggedHeaders := none } := by
            intro t; rw [relayCore.eq_def, hc]
          exact Or.inl ⟨fun t₁ t₂ => by rw [hrel, hcore, hrel, hcore],
            fun t => by rw [hrel, hcore]⟩
        case str =>
          have hcore : ∀ t, relayCore fields net t =
              { envelope := unexpectedEnvelope "config object has no attribute get",
                http_status := 500, calls := [], loggedHeaders := none } := by
            intro t; rw [relayCore.eq_def, hc]
          exact Or.inl ⟨fun t₁ t₂ => by rw [hrel, hcore, hrel, hcore],
            fun t => by rw [hrel, hcore]⟩
        case arr =>
          have hcore : ∀ t, relayCore fields net t =
              { envelope := unexpectedEnvelope "config object has no attribute get",
                http_status := 500, calls := [], loggedHeaders := none } := by
            intro t; rw [relayCore.eq_def, hc]
          exact Or.inl ⟨fun t₁ t₂ => by rw [hrel, hcore, hrel, hcore],
            fun t => by rw [hrel, hcore]⟩
        case obj =>
          by_cases hu : ((dictGet cf "url").getD .null).truthy = true
          case neg =>
            have hcore : ∀ t, relayCore fields net t =
                { envelope := noUrlEnvelope, http_status := 400, calls := [],
                  loggedHeaders := none } := by
              intro t; rw [relayCore.eq_def, hc]; simp [hu]
            exact Or.inl ⟨fun t₁ t₂ => by rw [hrel, hcore, hrel, hcore],
              fun t => by rw [hrel, hcore]⟩
          case pos =>
            rcases hh : headersToStrs (filteredHeaders cf) with _ | hs
            case none =>
              have hcore : ∀ t, relayCore fields net t =
                  { envelope := unexpectedEnvelope "non-string header value",
                    http_status := 500, calls := [], loggedHeaders := none } := by
                intro t; rw [relayCore.eq_def, hc]; simp [hu, hh]
              exact Or.inl ⟨fun t₁ t₂ => by rw [hrel, hcore, hrel, hcore],
                fun t => by rw [hrel, hcore]⟩
            case some =>
              rcases hurl : (dictGet cf "url").getD .null with _ | b | n | u | es | fs
              case null =>
                rw [hurl] at hu
                simp [Json.truthy] at hu
              case bool =>
                rw [hurl] at hu
                have hcore : ∀ t, relayCore fields net t =
                    { envelope := unexpectedEnvelope "invalid URL type", http_status := 500,
                      calls := [],
                      loggedHeaders := some (hs.map (fun p => (p.1, redact p.2))) } := by
                  intro t; rw [relayCore.eq_def, hc]; simp [hu, hh, hurl]
                exact Or.inl ⟨fun t₁ t₂ => by rw [hrel, hcore, hrel, hcore],
                  fun t => by rw [hrel, hcore]⟩
              case num =>
                rw [hurl] at hu
                have hcore : ∀ t, relayCore fields net t =
                    { envelope := unexpectedEnvelope "invalid URL type", http_status := 500,
                      calls := [],
                      loggedHeaders := some (hs.map (fun p => (p.1, redact p.2))) } := by
                  intro t; rw [relayCore.eq_def, hc]; simp [hu, hh, hurl]
                exact Or.inl ⟨fun t₁ t₂ => by rw [hrel, hcore, hrel, hcore],
                  fun t => by rw [hrel, hcore]⟩
              case arr =>
                rw [hurl] at hu
                have hcore : ∀ t, relayCore fields net t =
                    { envelope := unexpectedEnvelope "invalid URL type", http_status := 500,
                      calls := [],
                      loggedHeaders := some (hs.map (fun p => (p.1, redact p.2))) } := by
                  intro t; rw [relayCore.eq_def, hc]; simp [hu, hh, hurl]
                exact Or.inl ⟨fun t₁ t₂ => by rw [hrel, hcore, hrel, hcore],
                  fun t => by rw [hrel, hcore]⟩
              case obj =>
                rw [hurl] at hu
                have hcore : ∀ t, relayCore fields net t =
                    { envelope := unexpectedEnvelope "invalid URL type", http_status := 500,
                      calls := [],
                      loggedHeaders := some (hs.map (fun p => (p.1, redact p.2))) } := by
                  intro t; rw [relayCore.eq_def, hc]; simp [hu, hh, hurl]
                exact Or.inl ⟨fun t₁ t₂ => by rw [hrel, hcore, hrel, hcore],
                  fun t => by rw [hrel, hcore]⟩
              case str =>
                refine Or.inr ⟨mkCall u hs (dictGetD fields "body" (.obj [])), rfl, ?_⟩
                intro t
                rw [hrel, relayCore.eq_def, hc]
                rw [hurl] at hu
                simp [hu, hh, hurl]

/-- A well-formed descriptor (truthy object payload, object config,
non-empty string URL, string-typed header fields) reaches the network:
the relay issues exactly the call built from the resolved headers and
body and classifies its outcome. -/
lemma relay_reaches (fields cf : List (String × Json)) (body : Json) (u : String)
    (ct ua ae ak tok : Option String)
    (net : OutboundCall → NetOutcome) (now : String)
    (hconf : dictGetD fields "config" (.obj []) = Json.obj cf)
    (hbody : dictGetD fields "body" (.obj []) = body)
    (hurl : dictGet cf "url" = some (Json.str u)) (hu : u ≠ "")
    (hct : dictGet cf "contentType" = ct.map Json.str)
    (hua : dictGet cf "userAgent" = ua.map Json.str)
    (hae : dictGet cf "acceptEncoding" = ae.map Json.str)
    (hak : dictGet cf "apiKey" = ak.map Json.str)
    (htok : dictGet cf "authToken" = tok.map Json.str) :
    relay (some (Json.obj fields)) net now
      = netResult (net (mkCall u (sentHeaders ct ua ae ak tok) body))
          (mkCall u (sentHeaders ct ua ae ak tok) body) now := by
  have hne : fields ≠ [] := by
    intro h
    subst h
    have hcf : cf = [] := by
      have : Json.obj [] = Json.obj cf := by
        simpa [dictGetD, dictGet] using hconf
      simpa using this.symm
    rw [hcf] at hurl
    simp [dictGet] at hurl
  have ht : Json.truthy (.obj fields) = true := by
    simp [Json.truthy, hne]
  have hh := headersToStrs_filteredHeaders cf ct ua ae ak tok hct hua hae hak htok
  have hrel : relay (some (.obj fields)) net now = relayCore fields net now := by
    simp [relay, ht]
  rw [hrel, relayCore.eq_def, hconf]
  have hget : (dictGet cf "url").getD .null = Json.str u := by rw [hurl]; rfl
  simp [hget, Json.truthy, hu, hh, hbody, sentHeaders]

lemma unexpected_msg_ne_noData (msg : String) :
    some ("Unexpected error: " ++ msg) ≠ some "No request data provided" := by
  intro h
  have hd : some 'U' = "No request data provided".data.head? :=
    congrArg (fun s => s.data.head?) (Option.some.inj h)
  exact absurd (Option.some.inj hd) (by decide)

lemma http_msg_ne_noData (msg : String) :
    some ("HTTP error occurred: " ++ msg) ≠ some "No request data provided" := by
  intro h
  have hd : some 'H' = "No request data provided".data.head? :=
    congrArg (fun s => s.data.head?) (Option.some.inj h)
  exact absurd (Option.some.inj hd) (by decide)

/-- No branch of `relayCore` can produce the missing-payload error
message of line 64; that message is produced only at line 62, before
`config` is even read. -/
lemma relayCore_error_ne_noData (fields : List (String × Json))
    (net : OutboundCall → NetOutcome) (now : String) :
    (relayCore fields net now).envelope.error ≠ some "No request data provided" := by
  rw [relayCore.eq_def]
  split
  · split
    · split
      · split
        · rcases net _ with r | _ | _ | _ | msg | msg
          · simp [netResult, successEnvelope]
          · simp [netResult, timeoutEnvelope]
          · simp [netResult, connectionEnvelope]
          · simp [netResult, connectionEnvelope]
          · simpa [netResult, httpEnvelope] using http_msg_ne_noData msg
          · simpa [netResult, unexpectedEnvelope] using unexpected_msg_ne_noData msg
        · simp [unexpectedEnvelope]
      · simp [unexpectedEnvelope]
    · simp [noUrlEnvelope]
  · simp [unexpectedEnvelope]

/-- C8: the relay is deterministic in `data` and `status_code`: two
invocations on the same payload against the same (deterministic) target
agree on `data`, `status_code` and the paired HTTP status, whatever the
two clock readings are (only the `timestamp` field can differ). -/
theorem relay_data_status_deterministic (payload : Option Json)
    (net : OutboundCall → NetOutcome) (t₁ t₂ : String) :
    (relay payload net t₁).envelope.data = (relay payload net t₂).envelope.data ∧
    (relay payload net t₁).envelope.status_code
      = (relay payload net t₂).envelope.status_code ∧
    (relay payload net t₁).http_status = (relay payload net t₂).http_status := by
  rcases relay_shape payload net with ⟨heq, -⟩ | ⟨call, -, hR⟩
  · rw [heq t₁ t₂]
    exact ⟨rfl, rfl, rfl⟩
  · rw [hR t₁, hR t₂]
    exact netResult_time_independent (net call) call t₁ t₂

/-- C1 (code bug): when the outbound call fails TLS certificate
verification, `requests` raises `SSLError`, a subclass of
`requests.exceptions.ConnectionError`, so the `except ConnectionError`
clause at line 132 catches it first and the relay answers the failure
envelope `success: false`, `error_type: "connection"` at HTTP 503 —
never the 495/`"ssl"` envelope of the dead handler at lines 141-148
that the claim (and the spec) describe.  The no-fallback half of the
claim does hold: every call the relay ever issues has TLS verification
enabled and at most one call is issued, so there is no retry over an
unverified connection. -/
theorem ssl_failure_answered_as_connection (payload : Option Json)
    (net : OutboundCall → NetOutcome) (now : String)
    (hnet : ∀ c, net c = NetOutcome.sslError) :
    (∀ c ∈ (relay payload net now).calls, c.verify = true) ∧
    (relay payload net now).calls.length ≤ 1 ∧
    ((relay payload net now).calls ≠ [] →
      (relay payload net now).envelope.success = false ∧
      (relay payload net now).envelope.error_type = some "connection" ∧
      (relay payload net now).envelope.error_type ≠ some "ssl" ∧
      (relay payload net now).envelope.error
        = some "Connection error - unable to reach the target API" ∧
      (relay payload net now).http_status = 503 ∧
      (relay payload net now).http_status ≠ 495 ∧
      (relay payload net now).envelope.data = none ∧
      (relay payload net now).envelope.status_code = none) := by
  rcases relay_shape payload net with ⟨-, hcalls⟩ | ⟨call, hv, hR⟩
  · refine ⟨fun c hc => ?_, ?_, fun hne => absurd (hcalls now) hne⟩
    · rw [hcalls now] at hc
      exact absurd hc (List.not_mem_nil c)
    · simp [hcalls now]
  · rw [hR now, hnet call]
    refine ⟨?_, ?_, fun _ => ?_⟩
    · intro c hc
      have : c = call := by simpa [netResult] using hc
      rw [this]; exact hv
    · simp [netResult]
    · exact ⟨rfl, rfl, by simp [netResult, connectionEnvelope], rfl, rfl,
        by simp [netResult], rfl, rfl⟩

theorem ssl_failure_answered_as_connection_witness :
    (relay (some (Json.obj [("config", Json.obj [("url", Json.str "https://expired.badssl.com/")])]))
        (fun _ => NetOutcome.sslError) "2026-01-01T00:00:00").http_status = 503 ∧
    (relay (some (Json.obj [("config", Json.obj [("url", Json.str "https://expired.badssl.com/")])]))
        (fun _ => NetOutcome.sslError) "2026-01-01T00:00:00").envelope.error_type
      = some "connection" ∧
    (relay (some (Json.obj [("config", Json.obj [("url", Json.str "https://expired.badssl.com/")])]))
        (fun _ => NetOutcome.sslError) "2026-01-01T00:00:00").envelope.error_type
      ≠ some "ssl" ∧
    (relay (some (Json.obj [("config", Json.obj [("url", Json.str "https://expired.badssl.com/")])]))
        (fun _ => NetOutcome.sslError) "2026-01-01T00:00:00").envelope.success = false := by
  have h := ssl_failure_answered_as_connection
      (some (Json.obj [("config", Json.obj [("url", Json.str "https://expired.badssl.com/")])]))
      (fun _ => NetOutcome.sslError) "2026-01-01T00:00:00" (fun c => rfl)
  have hlen : (relay
      (some (Json.obj [("config", Json.obj [("url", Json.str "https://expired.badssl.com/")])]))
      (fun _ => NetOutcome.sslError) "2026-01-01T00:00:00").calls.length = 1 := rfl
  have hne : (relay
      (some (Json.obj [("config", Json.obj [("url", Json.str "https://expired.badssl.com/")])]))
      (fun _ => NetOutcome.sslError) "2026-01-01T00:00:00").calls ≠ [] := by
    intro hempty
    rw [hempty] at hlen
    exact absurd hlen (by decide)
  obtain ⟨hsucc, htype, hnottype, -, hstat, -⟩ := h.2.2 hne
  exact ⟨hstat, htype, hnottype, hsucc⟩

/-- C10: a truthy non-object payload (e.g. a non-empty array) makes
`data.get('config', {})` raise `AttributeError`, answered as
`error_type: "unexpected"` with HTTP 500 and no outbound call; only a
falsy parsed payload (e.g. the empty object) is answered by the 400
missing-payload branch of line 62, and no truthy payload ever produces
that branch's error message. -/
theorem truthy_non_object_payload_unexpected (j : Json)
    (net : OutboundCall → NetOutcome) (now : String)
    (htru : j.truthy = true) (hobj : ∀ fs, j ≠ Json.obj fs) :
    ((relay (some j) net now).envelope.success = false ∧
     (relay (some j) net now).envelope.error_type = some "unexpected" ∧
     (relay (some j) net now).http_status = 500 ∧
     (relay (some j) net now).calls = []) ∧
    (∀ j₂ : Json, j₂.truthy = false →
      (relay (some j₂) net now).http_status = 400 ∧
      (relay (some j₂) net now).envelope.error = some "No request data provided" ∧
      (relay (some j₂) net now).envelope.success = false ∧
      (relay (some j₂) net now).calls = []) ∧
    (∀ j₃ : Json, j₃.truthy = true →
      (relay (some j₃) net now).envelope.error ≠ some "No request data provided") := by
  refine ⟨?_, ?_, ?_⟩
  · cases j with
    | obj fields => exact absurd rfl (hobj fields)
    | null => simp [Json.truthy] at htru
    | bool b => simp [relay, htru, unexpectedEnvelope]
    | num n => simp [relay, htru, unexpectedEnvelope]
    | str s => simp [relay, htru, unexpectedEnvelope]
    | arr es => simp [relay, htru, unexpectedEnvelope]
  · intro j₂ h2
    simp [relay, h2, noDataEnvelope]
  · intro j₃ h3
    cases j₃ with
    | null => simp [Json.truthy] at h3
    | obj fields =>
        have hrw : relay (some (Json.obj fields)) net now = relayCore fields net now := by
          simp [relay, h3]
        rw [hrw]
        exact relayCore_error_ne_noData fields net now
    | bool b =>
        simp only [relay, h3, if_true]
        simp [unexpectedEnvelope]
    | num n =>
        simp only [relay, h3, if_true]
        simp [unexpectedEnvelope]
    | str s =>
        simp only [relay, h3, if_true]
        simp [unexpectedEnvelope]
    | arr es =>
        simp only [relay, h3, if_true]
        simp [unexpectedEnvelope]

theorem truthy_non_object_payload_unexpected_witness :
    (relay (some (Json.arr [Json.num 1])) (fun _ => NetOutcome.timeout) "t").http_status
      = 500 ∧
    (relay (some (Json.arr [Json.num 1])) (fun _ => NetOutcome.timeout) "t").envelope.error_type
      = some "unexpected" ∧
    (relay (some (Json.obj [])) (fun _ => NetOutcome.timeout) "t").http_status = 400 := by
  have h := truthy_non_object_payload_unexpected (Json.arr [Json.num 1])
      (fun _ => NetOutcome.timeout) "t" rfl (fun fs hf => Json.noConfusion hf)
  exact ⟨h.1.2.2.1, h.1.2.1, (h.2.1 (Json.obj []) rfl).1⟩

/-- C2 counterexample: for the payload `{"config": {}}` (a present
config without `url`) the handler answers 400 with `success: false`, but
its envelope (lines 75-78) carries NO `error_type` key at all, so the
claimed `error_type: "validation"` is absent. -/
theorem missing_url_no_error_type_cex :
    (relay (some (Json.obj [("config", Json.obj [])]))
        (fun _ => NetOutcome.timeout) "t").envelope.error_type ≠ some "validation" ∧
    (relay (some (Json.obj [("config", Json.obj [])]))
        (fun _ => NetOutcome.timeout) "t").envelope.error_type = none ∧
    (relay (some (Json.obj [("config", Json.obj [])]))
        (fun _ => NetOutcome.timeout) "t").http_status = 400 ∧
    (relay (some (Json.obj [("config", Json.obj [])]))
        (fun _ => NetOutcome.timeout) "t").envelope.success = false ∧
    (relay (some (Json.obj [("config", Json.obj [])]))
        (fun _ => NetOutcome.timeout) "t").calls = [] := by
  exact ⟨by decide, rfl, rfl, rfl, rfl⟩

/-- C2 (amended): for a truthy object payload whose config is an object
with `url` absent or the empty string, the relay answers a failure
envelope with `success: false` and the error message
`"No target URL provided"` (but no `error_type` key) at HTTP 400, and no
outbound network call is attempted. -/
theorem missing_url_validation_no_call (fields cf : List (String × Json))
    (net : OutboundCall → NetOutcome) (now : String)
    (hne : fields ≠ [])
    (hconf : dictGetD fields "config" (.obj []) = Json.obj cf)
    (hurl : dictGet cf "url" = none ∨ dictGet cf "url" = some (Json.str "")) :
    (relay (some (Json.obj fields)) net now).envelope.success = false ∧
    (relay (some (Json.obj fields)) net now).envelope.error
      = some "No target URL provided" ∧
    (relay (some (Json.obj fields)) net now).envelope.error_type = none ∧
    (relay (some (Json.obj fields)) net now).http_status = 400 ∧
    (relay (some (Json.obj fields)) net now).calls = [] := by
  have ht : Json.truthy (.obj fields) = true := by simp [Json.truthy, hne]
  have hrw : relay (some (.obj fields)) net now = relayCore fields net now := by
    simp [relay, ht]
  have hu : ((dictGet cf "url").getD .null).truthy = false := by
    rcases hurl with h | h <;> rw [h] <;> rfl
  have hcore : relayCore fields net now =
      { envelope := noUrlEnvelope, http_status := 400, calls := [],
        loggedHeaders := none } := by
    rw [relayCore.eq_def, hconf]
    simp [hu]
  rw [hrw, hcore]
  exact ⟨rfl, rfl, rfl, rfl, rfl⟩

theorem missing_url_validation_no_call_witness :
    (relay (some (Json.obj [("config", Json.obj [("apiKey", Json.str "k")])]))
        (fun _ => NetOutcome.timeout) "t").http_status = 400 ∧
    (relay (some (Json.obj [("config", Json.obj [("apiKey", Json.str "k")])]))
        (fun _ => NetOutcome.timeout) "t").envelope.error
      = some "No target URL provided" ∧
    (relay (some (Json.obj [("config", Json.obj [("apiKey", Json.str "k")])]))
        (fun _ => NetOutcome.timeout) "t").calls = [] := by
  have h := missing_url_validation_no_call
      [("config", Json.obj [("apiKey", Json.str "k")])] [("apiKey", Json.str "k")]
      (fun _ => NetOutcome.timeout) "t" (by simp) rfl (Or.inl rfl)
  exact ⟨h.2.2.2.1, h.2.1, h.2.2.2.2⟩

/-- C3: whenever the target returns an HTTP response — any status code,
4xx and 5xx included — the relay answers HTTP 200 with a success
envelope: `success: true`, `status_code` the target's real status code,
`data` the parsed JSON body when the body is valid JSON and the raw text
body unmodified otherwise, plus the target's headers and a timestamp. -/
theorem target_response_relayed (fields cf : List (String × Json)) (body : Json)
    (u : String) (ct ua ae ak tok : Option String) (r : HttpResponse)
    (net : OutboundCall → NetOutcome) (now : String)
    (hconf : dictGetD fields "config" (.obj []) = Json.obj cf)
    (hbody : dictGetD fields "body" (.obj []) = body)
    (hurl : dictGet cf "url" = some (Json.str u)) (hu : u ≠ "")
    (hct : dictGet cf "contentType" = ct.map Json.str)
    (hua : dictGet cf "userAgent" = ua.map Json.str)
    (hae : dictGet cf "acceptEncoding" = ae.map Json.str)
    (hak : dictGet cf "apiKey" = ak.map Json.str)
    (htok : dictGet cf "authToken" = tok.map Json.str)
    (hnet : net (mkCall u (sentHeaders ct ua ae ak tok) body)
      = NetOutcome.response r) :
    (relay (some (Json.obj fields)) net now).http_status = 200 ∧
    (relay (some (Json.obj fields)) net now).envelope.success = true ∧
    (relay (some (Json.obj fields)) net now).envelope.status_code
      = some r.status_code ∧
    (r.json? = none →
      (relay (some (Json.obj fields)) net now).envelope.data
        = some (RData.textData r.text)) ∧
    (∀ j, r.json? = some j →
      (relay (some (Json.obj fields)) net now).envelope.data
        = some (RData.jsonData j)) ∧
    (relay (some (Json.obj fields)) net now).envelope.headers = some r.headers ∧
    (relay (some (Json.obj fields)) net now).envelope.timestamp = some now := by
  rw [relay_reaches fields cf body u ct ua ae ak tok net now hconf hbody hurl hu
    hct hua hae hak htok, hnet]
  refine ⟨rfl, rfl, rfl, fun hj => ?_, fun j hj => ?_, rfl, rfl⟩
  · simp [netResult, successEnvelope, hj]
  · simp [netResult, successEnvelope, hj]

theorem target_response_relayed_witness :
    (relay (some (Json.obj [("config", Json.obj [("url", Json.str "https://example.com")])]))
        (fun _ => NetOutcome.response ⟨404, [("Server", "nginx")], "plain text body", none⟩)
        "t").http_status = 200 ∧
    (relay (some (Json.obj [("config", Json.obj [("url", Json.str "https://example.com")])]))
        (fun _ => NetOutcome.response ⟨404, [("Server", "nginx")], "plain text body", none⟩)
        "t").envelope.success = true ∧
    (relay (some (Json.obj [("config", Json.obj [("url", Json.str "https://example.com")])]))
        (fun _ => NetOutcome.response ⟨404, [("Server", "nginx")], "plain text body", none⟩)
        "t").envelope.status_code = some 404 ∧
    (relay (some (Json.obj [("config", Json.obj [("url", Json.str "https://example.com")])]))
        (fun _ => NetOutcome.response ⟨404, [("Server", "nginx")], "plain text body", none⟩)
        "t").envelope.data = some (RData.textData "plain text body") := by
  have h := target_response_relayed
      [("config", Json.obj [("url", Json.str "https://example.com")])]
      [("url", Json.str "https://example.com")] (Json.obj []) "https://example.com"
      none none none none none ⟨404, [("Server", "nginx")], "plain text body", none⟩
      (fun _ => NetOutcome.response ⟨404, [("Server", "nginx")], "plain text body", none⟩)
      "t" rfl rfl rfl (by decide) rfl rfl rfl rfl rfl rfl
  exact ⟨h.1, h.2.1, h.2.2.1, h.2.2.2.1 rfl⟩

lemma bearer_ne_empty (s : String) : "Bearer " ++ s ≠ "" := by
  intro h
  have hd : some 'B' = ("" : String).data.head? :=
    congrArg (fun t => t.data.head?) h
  exact Option.noConfusion hd

/-- C4: the outbound request's headers are exactly the resolved values —
`contentType` defaulting to `"application/json"`, `userAgent` to
`"okhttp/4.11.0"`, `acceptEncoding` to `"gzip,deflate,br"`, `apiKey` to
`""`, `Authorization` to `Bearer <token>` when the token is non-empty
and `""` otherwise — kept exactly when non-empty; no header is ever sent
with an empty string value. -/
theorem header_included_iff_nonempty (fields cf : List (String × Json)) (body : Json)
    (u : String) (ct ua ae ak tok : Option String)
    (net : OutboundCall → NetOutcome) (now : String)
    (hconf : dictGetD fields "config" (.obj []) = Json.obj cf)
    (hbody : dictGetD fields "body" (.obj []) = body)
    (hurl : dictGet cf "url" = some (Json.str u)) (hu : u ≠ "")
    (hct : dictGet cf "contentType" = ct.map Json.str)
    (hua : dictGet cf "userAgent" = ua.map Json.str)
    (hae : dictGet cf "acceptEncoding" = ae.map Json.str)
    (hak : dictGet cf "apiKey" = ak.map Json.str)
    (htok : dictGet cf "authToken" = tok.map Json.str) :
    (relay (some (Json.obj fields)) net now).calls
      = [mkCall u
          (([("Content-Type", ct.getD "application/json"),
             ("User-Agent", ua.getD "okhttp/4.11.0"),
             ("Accept-Encoding", ae.getD "gzip,deflate,br"),
             ("x-api-key", ak.getD ""),
             ("Authorization",
               if tok.getD "" = "" then "" else "Bearer " ++ tok.getD "")] :
            List (String × String)).filter
            (fun p => p.2 ≠ "")) body] ∧
    (∀ c ∈ (relay (some (Json.obj fields)) net now).calls,
      ∀ p ∈ c.headers, p.2 ≠ "") := by
  rw [relay_reaches fields cf body u ct ua ae ak tok net now hconf hbody hurl hu
    hct hua hae hak htok]
  constructor
  · rw [netResult_calls]
    rfl
  · intro c hc p hp
    rw [netResult_calls] at hc
    have hceq : c = mkCall u (sentHeaders ct ua ae ak tok) body := by
      simpa using hc
    rw [hceq] at hp
    have hmem : p ∈ (resolvedHeaders ct ua ae ak tok).filter (fun q => q.2 ≠ "") := hp
    have := (List.mem_filter.mp hmem).2
    simpa using this

theorem header_included_iff_nonempty_witness :
    (relay (some (Json.obj [("config", Json.obj
        [("url", Json.str "https://example.com"), ("contentType", Json.str ""),
         ("authToken", Json.str "xyz")])]))
      (fun _ => NetOutcome.timeout) "t").calls
      = [mkCall "https://example.com"
          [("User-Agent", "okhttp/4.11.0"), ("Accept-Encoding", "gzip,deflate,br"),
           ("Authorization", "Bearer xyz")] (Json.obj [])] := by
  have h := header_included_iff_nonempty
      [("config", Json.obj [("url", Json.str "https://example.com"),
        ("contentType", Json.str ""), ("authToken", Json.str "xyz")])]
      [("url", Json.str "https://example.com"), ("contentType", Json.str ""),
        ("authToken", Json.str "xyz")]
      (Json.obj []) "https://example.com" (some "") none none none (some "xyz")
      (fun _ => NetOutcome.timeout) "t" rfl rfl rfl (by decide) rfl rfl rfl rfl rfl
  exact h.1.trans rfl

/-- C5: when `authToken` is a non-empty string the outbound request
carries the header `Authorization: Bearer <token>` exactly (and no other
`Authorization` value); when `authToken` is absent or the empty string
no `Authorization` header is present at all. -/
theorem auth_header_bearer_iff (fields cf : List (String × Json)) (body : Json)
    (u : String) (ct ua ae ak tok : Option String)
    (net : OutboundCall → NetOutcome) (now : String)
    (hconf : dictGetD fields "config" (.obj []) = Json.obj cf)
    (hbody : dictGetD fields "body" (.obj []) = body)
    (hurl : dictGet cf "url" = some (Json.str u)) (hu : u ≠ "")
    (hct : dictGet cf "contentType" = ct.map Json.str)
    (hua : dictGet cf "userAgent" = ua.map Json.str)
    (hae : dictGet cf "acceptEncoding" = ae.map Json.str)
    (hak : dictGet cf "apiKey" = ak.map Json.str)
    (htok : dictGet cf "authToken" = tok.map Json.str) :
    (relay (some (Json.obj fields)) net now).calls
      = [mkCall u (sentHeaders ct ua ae ak tok) body] ∧
    (tok.getD "" ≠ "" →
      ("Authorization", "Bearer " ++ tok.getD "") ∈ sentHeaders ct ua ae ak tok ∧
      ∀ v, ("Authorization", v) ∈ sentHeaders ct ua ae ak tok →
        v = "Bearer " ++ tok.getD "") ∧
    ((tok = none ∨ tok = some "") →
      ∀ v, ("Authorization", v) ∉ sentHeaders ct ua ae ak tok) := by
  refine ⟨?_, fun htok' => ⟨?_, fun v hv => ?_⟩, fun habs v hv => ?_⟩
  · rw [relay_reaches fields cf body u ct ua ae ak tok net now hconf hbody hurl hu
      hct hua hae hak htok, netResult_calls]
  · simp [sentHeaders, resolvedHeaders, List.mem_filter, htok', bearer_ne_empty]
  · simp [sentHeaders, resolvedHeaders, List.mem_filter, htok'] at hv
    tauto
  · rcases habs with h | h <;> rw [h] at hv <;>
      simp [sentHeaders, resolvedHeaders, List.mem_filter] at hv

theorem auth_header_bearer_iff_witness :
    ("Authorization", "Bearer xyz") ∈ sentHeaders none none none none (some "xyz") ∧
    (∀ v, ("Authorization", v) ∉ sentHeaders none none none none none) ∧
    (relay (some (Json.obj [("config", Json.obj [("url", Json.str "https://example.com"),
        ("authToken", Json.str "xyz")])])) (fun _ => NetOutcome.timeout) "t").calls
      = [mkCall "https://example.com" (sentHeaders none none none none (some "xyz"))
          (Json.obj [])] := by
  have h := auth_header_bearer_iff
      [("config", Json.obj [("url", Json.str "https://example.com"),
        ("authToken", Json.str "xyz")])]
      [("url", Json.str "https://example.com"), ("authToken", Json.str "xyz")]
      (Json.obj []) "https://example.com" none none none none (some "xyz")
      (fun _ => NetOutcome.timeout) "t" rfl rfl rfl (by decide) rfl rfl rfl rfl rfl
  have h₀ := auth_header_bearer_iff
      [("config", Json.obj [("url", Json.str "https://example.com")])]
      [("url", Json.str "https://example.com")]
      (Json.obj []) "https://example.com" none none none none none
      (fun _ => NetOutcome.timeout) "t" rfl rfl rfl (by decide) rfl rfl rfl rfl rfl
  refine ⟨?_, fun v => h₀.2.2 (Or.inl rfl) v, h.1⟩
  exact (h.2.1 (by decide)).1

/-- C9: when `apiKey` is a non-empty string its value is transmitted
under the header name `x-api-key` (and no other value is sent under that
name); when `apiKey` is absent or empty no `x-api-key` header is sent. -/
theorem apikey_header_presence (fields cf : List (String × Json)) (body : Json)
    (u : String) (ct ua ae ak tok : Option String)
    (net : OutboundCall → NetOutcome) (now : String)
    (hconf : dictGetD fields "config" (.obj []) = Json.obj cf)
    (hbody : dictGetD fields "body" (.obj []) = body)
    (hurl : dictGet cf "url" = some (Json.str u)) (hu : u ≠ "")
    (hct : dictGet cf "contentType" = ct.map Json.str)
    (hua : dictGet cf "userAgent" = ua.map Json.str)
    (hae : dictGet cf "acceptEncoding" = ae.map Json.str)
    (hak : dictGet cf "apiKey" = ak.map Json.str)
    (htok : dictGet cf "authToken" = tok.map Json.str) :
    (relay (some (Json.obj fields)) net now).calls
      = [mkCall u (sentHeaders ct ua ae ak tok) body] ∧
    (ak.getD "" ≠ "" →
      ("x-api-key", ak.getD "") ∈ sentHeaders ct ua ae ak tok ∧
      ∀ v, ("x-api-key", v) ∈ sentHeaders ct ua ae ak tok → v = ak.getD "") ∧
    ((ak = none ∨ ak = some "") →
      ∀ v, ("x-api-key", v) ∉ sentHeaders ct ua ae ak tok) := by
  refine ⟨?_, fun hak' => ⟨?_, fun v hv => ?_⟩, fun habs v hv => ?_⟩
  · rw [relay_reaches fields cf body u ct ua ae ak tok net now hconf hbody hurl hu
      hct hua hae hak htok, netResult_calls]
  · simp [sentHeaders, resolvedHeaders, List.mem_filter, hak']
  · simp [sentHeaders, resolvedHeaders, List.mem_filter, hak'] at hv
    tauto
  · rcases habs with h | h <;> rw [h] at hv <;>
      simp [sentHeaders, resolvedHeaders, List.mem_filter] at hv

theorem apikey_header_presence_witness :
    ("x-api-key", "secret123") ∈ sentHeaders none none none (some "secret123") none ∧
    (∀ v, ("x-api-key", v) ∉ sentHeaders none none none none none) ∧
    (relay (some (Json.obj [("config", Json.obj [("url", Json.str "https://example.com"),
        ("apiKey", Json.str "secret123")])])) (fun _ => NetOutcome.timeout) "t").calls
      = [mkCall "https://example.com" (sentHeaders none none none (some "secret123") none)
          (Json.obj [])] := by
  have h := apikey_header_presence
      [("config", Json.obj [("url", Json.str "https://example.com"),
        ("apiKey", Json.str "secret123")])]
      [("url", Json.str "https://example.com"), ("apiKey", Json.str "secret123")]
      (Json.obj []) "https://example.com" none none none (some "secret123") none
      (fun _ => NetOutcome.timeout) "t" rfl rfl rfl (by decide) rfl rfl rfl rfl rfl
  have h₀ := apikey_header_presence
      [("config", Json.obj [("url", Json.str "https://example.com")])]
      [("url", Json.str "https://example.com")]
      (Json.obj []) "https://example.com" none none none none none
      (fun _ => NetOutcome.timeout) "t" rfl rfl rfl (by decide) rfl rfl rfl rfl rfl
  exact ⟨(h.2.1 (by decide)).1, fun v => h₀.2.2 (Or.inl rfl) v, h.1⟩

/-- C6: each network failure of the outbound call is mapped to its
fixed failure envelope — `timeout` to 408, `connection` to 503, a
transport-level `HTTPError` to 500 with kind `http`, any other exception
to 500 with kind `unexpected` — always with `success: false` and never
with any response `data` or `status_code`. -/
theorem failure_taxonomy_statuses (fields cf : List (String × Json)) (body : Json)
    (u : String) (ct ua ae ak tok : Option String)
    (net : OutboundCall → NetOutcome) (now : String)
    (hconf : dictGetD fields "config" (.obj []) = Json.obj cf)
    (hbody : dictGetD fields "body" (.obj []) = body)
    (hurl : dictGet cf "url" = some (Json.str u)) (hu : u ≠ "")
    (hct : dictGet cf "contentType" = ct.map Json.str)
    (hua : dictGet cf "userAgent" = ua.map Json.str)
    (hae : dictGet cf "acceptEncoding" = ae.map Json.str)
    (hak : dictGet cf "apiKey" = ak.map Json.str)
    (htok : dictGet cf "authToken" = tok.map Json.str) :
    (net (mkCall u (sentHeaders ct ua ae ak tok) body) = NetOutcome.timeout →
      (relay (some (Json.obj fields)) net now).http_status = 408 ∧
      (relay (some (Json.obj fields)) net now).envelope.error_type = some "timeout" ∧
      (relay (some (Json.obj fields)) net now).envelope.success = false ∧
      (relay (some (Json.obj fields)) net now).envelope.data = none ∧
      (relay (some (Json.obj fields)) net now).envelope.status_code = none) ∧
    (net (mkCall u (sentHeaders ct ua ae ak tok) body) = NetOutcome.connectionError →
      (relay (some (Json.obj fields)) net now).http_status = 503 ∧
      (relay (some (Json.obj fields)) net now).envelope.error_type = some "connection" ∧
      (relay (some (Json.obj fields)) net now).envelope.success = false ∧
      (relay (some (Json.obj fields)) net now).envelope.data = none ∧
      (relay (some (Json.obj fields)) net now).envelope.status_code = none) ∧
    (∀ msg, net (mkCall u (sentHeaders ct ua ae ak tok) body) = NetOutcome.httpError msg →
      (relay (some (Json.obj fields)) net now).http_status = 500 ∧
      (relay (some (Json.obj fields)) net now).envelope.error_type = some "http" ∧
      (relay (some (Json.obj fields)) net now).envelope.success = false ∧
      (relay (some (Json.obj fields)) net now).envelope.data = none ∧
      (relay (some (Json.obj fields)) net now).envelope.status_code = none) ∧
    (∀ msg, net (mkCall u (sentHeaders ct ua ae ak tok) body) = NetOutcome.otherError msg →
      (relay (some (Json.obj fields)) net now).http_status = 500 ∧
      (relay (some (Json.obj fields)) net now).envelope.error_type = some "unexpected" ∧
      (relay (some (Json.obj fields)) net now).envelope.success = false ∧
      (relay (some (Json.obj fields)) net now).envelope.data = none ∧
      (relay (some (Json.obj fields)) net now).envelope.status_code = none) := by
  rw [relay_reaches fields cf body u ct ua ae ak tok net now hconf hbody hurl hu
    hct hua hae hak htok]
  refine ⟨fun h => ?_, fun h => ?_, fun msg h => ?_, fun msg h => ?_⟩ <;>
    rw [h] <;> exact ⟨rfl, rfl, rfl, rfl, rfl⟩

theorem failure_taxonomy_statuses_witness :
    (relay (some (Json.obj [("config", Json.obj [("url", Json.str "https://example.com")])]))
        (fun _ => NetOutcome.timeout) "t").http_status = 408 ∧
    (relay (some (Json.obj [("config", Json.obj [("url", Json.str "https://example.com")])]))
        (fun _ => NetOutcome.timeout) "t").envelope.error_type = some "timeout" ∧
    (relay (some (Json.obj [("config", Json.obj [("url", Json.str "https://example.com")])]))
        (fun _ => NetOutcome.connectionError) "t").http_status = 503 ∧
    (relay (some (Json.obj [("config", Json.obj [("url", Json.str "https://example.com")])]))
        (fun _ => NetOutcome.connectionError) "t").envelope.error_type
      = some "connection" := by
  have ht := failure_taxonomy_statuses
      [("config", Json.obj [("url", Json.str "https://example.com")])]
      [("url", Json.str "https://example.com")] (Json.obj []) "https://example.com"
      none none none none none (fun _ => NetOutcome.timeout) "t"
      rfl rfl rfl (by decide) rfl rfl rfl rfl rfl
  have hcnx := failure_taxonomy_statuses
      [("config", Json.obj [("url", Json.str "https://example.com")])]
      [("url", Json.str "https://example.com")] (Json.obj []) "https://example.com"
      none none none none none (fun _ => NetOutcome.connectionError) "t"
      rfl rfl rfl (by decide) rfl rfl rfl rfl rfl
  obtain ⟨h1, h2, -⟩ := ht.1 rfl
  obtain ⟨h3, h4, -⟩ := hcnx.2.1 rfl
  exact ⟨h1, h2, h3, h4⟩

/-- C7: for every call the relay issues, the logged header summary is
the transmitted headers with each value put through `redact`: a value
longer than 20 characters is logged as its first 20 characters followed
by `"..."`, a value of at most 20 characters is logged unchanged — while
the transmitted headers themselves (the ones in the call) are the full
unmodified values. -/
theorem logged_headers_redacted (payload : Option Json)
    (net : OutboundCall → NetOutcome) (now : String) :
    ∀ call ∈ (relay payload net now).calls,
      (relay payload net now).loggedHeaders
        = some (call.headers.map (fun p => (p.1, redact p.2))) ∧
      (∀ p ∈ call.headers, 20 < p.2.length →
        (p.1, p.2.take 20 ++ "...") ∈ call.headers.map (fun q => (q.1, redact q.2))) ∧
      (∀ p ∈ call.headers, p.2.length ≤ 20 →
        p ∈ call.headers.map (fun q => (q.1, redact q.2))) := by
  intro call hc
  rcases relay_shape payload net with ⟨-, hcalls⟩ | ⟨c₀, -, hR⟩
  · rw [hcalls now] at hc
    exact absurd hc (List.not_mem_nil call)
  · rw [hR now] at hc ⊢
    rw [netResult_calls] at hc
    have hceq : call = c₀ := by simpa using hc
    subst hceq
    refine ⟨netResult_logged _ _ _, fun p hp hlen => ?_, fun p hp hlen => ?_⟩
    · exact List.mem_map.mpr ⟨p, hp, by simp [redact, hlen]⟩
    · refine List.mem_map.mpr ⟨p, hp, ?_⟩
      have hnot : ¬ p.2.length > 20 := by omega
      simp [redact, hnot]

set_option maxRecDepth 4000 in
theorem logged_headers_redacted_witness :
    (relay (some (Json.obj [("config", Json.obj
        [("url", Json.str "https://example.com"),
         ("userAgent", Json.str "a-very-long-user-agent-string")])]))
      (fun _ => NetOutcome.timeout) "t").loggedHeaders
      = some [("Content-Type", "application/json"),
              ("User-Agent", "a-very-long-user-age..."),
              ("Accept-Encoding", "gzip,deflate,br")] ∧
    (relay (some (Json.obj [("config", Json.obj
        [("url", Json.str "https://example.com"),
         ("userAgent", Json.str "a-very-long-user-agent-string")])]))
      (fun _ => NetOutcome.timeout) "t").calls
      = [mkCall "https://example.com"
          [("Content-Type", "application/json"),
           ("User-Agent", "a-very-long-user-agent-string"),
           ("Accept-Encoding", "gzip,deflate,br")] (Json.obj [])] := by
  have h := logged_headers_redacted
      (some (Json.obj [("config", Json.obj
        [("url", Json.str "https://example.com"),
         ("userAgent", Json.str "a-very-long-user-agent-string")])]))
      (fun _ => NetOutcome.timeout) "t"
      (mkCall "https://example.com"
        [("Content-Type", "application/json"),
         ("User-Agent", "a-very-long-user-agent-string"),
         ("Accept-Encoding", "gzip,deflate,br")] (Json.obj []))
      (List.mem_cons_self _ _)
  exact ⟨h.1.trans rfl, rfl⟩

end FlaskRelay
